import Mathlib

/- Shallow embedding of the marketplace backend (Express route handlers over a
   relational store).  Lists of records stand for the SQL tables; each route
   handler becomes a pure function from a database state and its request
   arguments to a response paired with the new database state. -/

set_option maxHeartbeats 1000000

/- Purchase lifecycle status, the string enum used in the purchases table. -/
inductive PStatus
| pending
| confirmed
| completed
| cancelled
deriving DecidableEq, Repr

/- Product lifecycle status, the string enum used in the products table. -/
inductive ProdStatus
| pending
| approved
| rejected
| sold
| inactive
deriving DecidableEq, Repr

/- Report status, the string enum used in the reports table. -/
inductive RStatus
| pending
| reviewed
| resolved
| dismissed
deriving DecidableEq, Repr

/- A row of the users table, fields as assigned in the User model constructor. -/
structure User where
  id : Nat
  name : String
  email : String
  phone : Option String
  password : String
  avatar : Option String
  is_verified : Bool
  is_active : Bool
  is_admin : Bool
  followers_count : Nat
  following_count : Nat
  listings_count : Nat
  sales_count : Nat
  created_at : Nat
  updated_at : Nat
deriving DecidableEq, Repr

/- The shape of User.toJSON output: every User field except password. -/
structure UserJSON where
  id : Nat
  name : String
  email : String
  phone : Option String
  avatar : Option String
  is_verified : Bool
  is_active : Bool
  is_admin : Bool
  followers_count : Nat
  following_count : Nat
  listings_count : Nat
  sales_count : Nat
  created_at : Nat
  updated_at : Nat
deriving DecidableEq, Repr

/- User.toJSON destructures the password out and returns the rest. -/
def User.toJSON (u : User) : UserJSON :=
  { id := u.id, name := u.name, email := u.email, phone := u.phone,
    avatar := u.avatar, is_verified := u.is_verified, is_active := u.is_active,
    is_admin := u.is_admin, followers_count := u.followers_count,
    following_count := u.following_count, listings_count := u.listings_count,
    sales_count := u.sales_count, created_at := u.created_at,
    updated_at := u.updated_at }

/- A row of the products table, fields as in the Product model constructor. -/
structure Product where
  id : Nat
  title : String
  description : String
  price : Nat
  category_id : Nat
  seller_id : Nat
  condition : String
  brand : Option String
  location : Option String
  status : ProdStatus
  rejection_reason : Option String
  views_count : Nat
  favorites_count : Nat
deriving DecidableEq, Repr

/- A row of the product_images table. -/
structure ProductImage where
  id : Nat
  product_id : Nat
  image_url : String
  is_primary : Bool
deriving DecidableEq, Repr

/- A row of the purchases table. -/
structure Purchase where
  id : Nat
  buyer_id : Nat
  seller_id : Nat
  product_id : Nat
  price : Nat
  quantity : Nat
  payment_method : String
  status : PStatus
  transaction_id : Option String
  completed_at : Option Unit
deriving DecidableEq, Repr

/- A row of the cart table. -/
structure CartItem where
  user_id : Nat
  product_id : Nat
  quantity : Nat
deriving DecidableEq, Repr

/- A row of the favorites table, the (user, product) pair. -/
structure Favorite where
  user_id : Nat
  product_id : Nat
deriving DecidableEq, Repr

/- A row of the messages table. -/
structure Message where
  id : Nat
  room_id : Nat
  sender_id : Nat
  message : String
  is_read : Bool
deriving DecidableEq, Repr

/- A row of the reports table. -/
structure Report where
  id : Nat
  reporter_id : Nat
  reported_user_id : Option Nat
  report_type : String
  reason : String
  description : Option String
  status : RStatus
  admin_notes : Option String
  resolved_at : Option Unit
deriving DecidableEq, Repr

/- A row of the notifications table.  The JSON data payload the handlers
   stringify is not modelled; no claim reads it back. -/
structure Notification where
  user_id : Nat
  ntype : String
  title : String
  message : String
deriving DecidableEq, Repr

/- The database state: one list per table, plus auto-increment counters for
   the tables whose fresh ids the handlers read back (insertId and run id). -/
structure DB where
  users : List User
  products : List Product
  purchases : List Purchase
  cart : List CartItem
  favorites : List Favorite
  product_images : List ProductImage
  messages : List Message
  reports : List Report
  notifications : List Notification
  next_purchase_id : Nat
  next_image_id : Nat
deriving DecidableEq, Repr

/- The uniform response envelope: HTTP status code, success flag, message. -/
structure Resp where
  status : Nat
  success : Bool
  message : String
deriving DecidableEq, Repr

/- SELECT * FROM products WHERE id = ?  (Product.findById). -/
def Product.findById (db : DB) (id : Nat) : Option Product :=
  db.products.find? (fun p => p.id == id)

/- SELECT * FROM purchases WHERE id = ?. -/
def findPurchase (db : DB) (id : Nat) : Option Purchase :=
  db.purchases.find? (fun p => p.id == id)

/- SELECT * FROM users WHERE id = ?  (User.findById). -/
def findUser (db : DB) (id : Nat) : Option User :=
  db.users.find? (fun u => u.id == id)

/- SELECT * FROM cart WHERE user_id = ? AND product_id = ?. -/
def findCartItem (db : DB) (userId productId : Nat) : Option CartItem :=
  db.cart.find? (fun c => c.user_id == userId && c.product_id == productId)

/- SELECT * FROM reports WHERE id = ?. -/
def findReport (db : DB) (id : Nat) : Option Report :=
  db.reports.find? (fun r => r.id == id)

/- The buyer-facing text inserted in the notification for each purchase
   status update (statusMessages in the status-update handler). -/
def purchaseStatusMessage : PStatus → String
| .confirmed => "Your purchase has been confirmed by the seller"
| .cancelled => "Your purchase has been cancelled by the seller"
| .completed => "Your purchase has been completed"
| .pending => ""

/- String form of a purchase status as interpolated into response messages. -/
def pStatusStr : PStatus → String
| .pending => "pending"
| .confirmed => "confirmed"
| .cancelled => "cancelled"
| .completed => "completed"

/- String form of a report status as interpolated into response messages. -/
def rStatusStr : RStatus → String
| .pending => "pending"
| .reviewed => "reviewed"
| .resolved => "resolved"
| .dismissed => "dismissed"

/- PUT /:purchaseId/status — the seller updates a purchase to confirmed,
   cancelled or completed.  Mirrors the handler step by step: validate the
   requested status, fetch the purchase, check the caller is the seller,
   reject terminal states, run the dynamic UPDATE (status, optional
   transaction_id, completed_at on completion), insert the buyer
   notification, and on completion mark the product sold and bump the
   seller sales_count. -/
def updatePurchaseStatus (db : DB) (userId purchaseId : Nat) (status : PStatus)
    (transaction_id : Option String) : Resp × DB :=
  if ¬ (status = .confirmed ∨ status = .cancelled ∨ status = .completed) then
    (⟨400, false, "Invalid status. Must be confirmed, cancelled, or completed"⟩, db)
  else
    match findPurchase db purchaseId with
    | none => (⟨404, false, "Purchase not found"⟩, db)
    | some purchase =>
      if purchase.seller_id ≠ userId then
        (⟨403, false, "You can only update your own sales"⟩, db)
      else if purchase.status = .completed ∨ purchase.status = .cancelled then
        (⟨400, false, "Purchase status cannot be changed"⟩, db)
      else
        let purchases1 := db.purchases.map (fun p =>
          if p.id == purchaseId then
            { p with
              status := status,
              transaction_id := match transaction_id with
                | some t => some t
                | none => p.transaction_id,
              completed_at := if status = .completed then some () else p.completed_at }
          else p)
        let note : Notification :=
          ⟨purchase.buyer_id, "purchase", "Purchase Update", purchaseStatusMessage status⟩
        let db1 : DB :=
          { db with purchases := purchases1,
                    notifications := db.notifications ++ [note] }
        let db2 : DB :=
          if status = .completed then
            { db1 with
              products := db1.products.map (fun pr =>
                if pr.id == purchase.product_id then { pr with status := .sold } else pr),
              users := db1.users.map (fun u =>
                if u.id == purchase.seller_id then
                  { u with sales_count := u.sales_count + 1 } else u) }
          else db1
        (⟨200, true, "Purchase " ++ pStatusStr status ++ " successfully"⟩, db2)

/- PUT /:purchaseId/cancel — the buyer cancels a purchase while it is
   still pending. -/
def cancelPurchase (db : DB) (userId purchaseId : Nat) : Resp × DB :=
  match findPurchase db purchaseId with
  | none => (⟨404, false, "Purchase not found"⟩, db)
  | some purchase =>
    if purchase.buyer_id ≠ userId then
      (⟨403, false, "You can only cancel your own purchases"⟩, db)
    else if purchase.status ≠ .pending then
      (⟨400, false, "Purchase cannot be cancelled"⟩, db)
    else
      let purchases1 := db.purchases.map (fun p =>
        if p.id == purchaseId then { p with status := PStatus.cancelled } else p)
      let note : Notification :=
        ⟨purchase.seller_id, "purchase", "Purchase Cancelled",
         "A buyer has cancelled their purchase"⟩
      (⟨200, true, "Purchase cancelled successfully"⟩,
       { db with purchases := purchases1,
                 notifications := db.notifications ++ [note] })

/- The payment methods accepted by purchaseValidation.create. -/
def paymentMethods : List String := ["cash", "upi", "card", "netbanking"]

/- Joi purchaseValidation.create on the request body: quantity an integer
   in [1,10] and payment_method in the allowed set. -/
def purchaseCreateValid (quantity : Nat) (payment_method : String) : Prop :=
  (1 ≤ quantity ∧ quantity ≤ 10) ∧ payment_method ∈ paymentMethods

instance (q : Nat) (pm : String) : Decidable (purchaseCreateValid q pm) := by
  unfold purchaseCreateValid; infer_instance

/- POST /create (purchases) — the handler body, after validation: check
   the product exists, reject self-purchase, require approved status,
   INSERT the purchase with the product price snapshot and status pending,
   DELETE the buyer's cart row for the product, insert the seller
   notification, and return the created purchase row. -/
def createPurchaseHandler (db : DB) (userId product_id quantity : Nat)
    (payment_method : String) : Resp × Option Purchase × DB :=
  match Product.findById db product_id with
  | none => (⟨404, false, "Product not found"⟩, none, db)
  | some product =>
    if product.seller_id == userId then
      (⟨400, false, "You cannot purchase your own product"⟩, none, db)
    else if product.status ≠ .approved then
      (⟨400, false, "Product is not available for purchase"⟩, none, db)
    else
      let newPurchase : Purchase :=
        ⟨db.next_purchase_id, userId, product.seller_id, product_id,
         product.price, quantity, payment_method, .pending, none, none⟩
      let note : Notification :=
        ⟨product.seller_id, "purchase", "New Purchase",
         "Someone wants to buy your product: " ++ product.title⟩
      let db1 : DB :=
        { db with
          purchases := db.purchases ++ [newPurchase],
          next_purchase_id := db.next_purchase_id + 1,
          cart := db.cart.filter (fun c =>
            !(c.user_id == userId && c.product_id == product_id)),
          notifications := db.notifications ++ [note] }
      (⟨201, true,
        "Purchase created successfully. Please contact the seller to complete the transaction."⟩,
       some newPurchase, db1)

/- The purchase-create route: the validation middleware runs first and
   rejects malformed bodies before the handler. -/
def createPurchaseRoute (db : DB) (userId product_id quantity : Nat)
    (payment_method : String) : Resp × Option Purchase × DB :=
  if purchaseCreateValid quantity payment_method then
    createPurchaseHandler db userId product_id quantity payment_method
  else
    (⟨400, false, "Validation error"⟩, none, db)

/- Joi cartValidation.addItem on the request body: quantity an integer in
   [1,10]. -/
def cartAddValid (quantity : Nat) : Prop := 1 ≤ quantity ∧ quantity ≤ 10

instance (q : Nat) : Decidable (cartAddValid q) := by
  unfold cartAddValid; infer_instance

/- POST /add (cart) — the handler body, after validation: check the
   product exists, reject adding one's own product, then either UPDATE the
   existing row (quantity = quantity + ?) or INSERT a new row. -/
def addToCartHandler (db : DB) (userId product_id quantity : Nat) : Resp × DB :=
  match Product.findById db product_id with
  | none => (⟨404, false, "Product not found"⟩, db)
  | some product =>
    if product.seller_id == userId then
      (⟨400, false, "You cannot add your own product to cart"⟩, db)
    else
      match findCartItem db userId product_id with
      | some _ =>
        (⟨200, true, "Item quantity updated in cart"⟩,
         { db with cart := db.cart.map (fun c =>
             if c.user_id == userId && c.product_id == product_id then
               { c with quantity := c.quantity + quantity }
             else c) })
      | none =>
        (⟨200, true, "Item added to cart"⟩,
         { db with cart := db.cart ++ [⟨userId, product_id, quantity⟩] })

/- The cart-add route: validation middleware, then the handler. -/
def addToCartRoute (db : DB) (userId product_id quantity : Nat) : Resp × DB :=
  if cartAddValid quantity then
    addToCartHandler db userId product_id quantity
  else
    (⟨400, false, "Validation error"⟩, db)

/- PUT /update/:productId (cart) — bound the quantity to [1,10] in the
   handler itself, require the row to exist, then UPDATE it. -/
def updateCartQuantity (db : DB) (userId productId quantity : Nat) : Resp × DB :=
  if quantity < 1 ∨ quantity > 10 then
    (⟨400, false, "Quantity must be between 1 and 10"⟩, db)
  else
    match findCartItem db userId productId with
    | none => (⟨404, false, "Item not found in cart"⟩, db)
    | some _ =>
      (⟨200, true, "Cart item updated"⟩,
       { db with cart := db.cart.map (fun c =>
           if c.user_id == userId && c.product_id == productId then
             { c with quantity := quantity }
           else c) })

/- Modelled from the spec: Product.isFavoritedBy is called by the favorite
   route but is absent from the Product model under src; per spec section 3
   a Favorite is a unique (user, product) pair, so the check is existence of
   that pair. -/
def isFavoritedBy (db : DB) (userId productId : Nat) : Bool :=
  db.favorites.any (fun f => f.user_id == userId && f.product_id == productId)

/- Modelled from the spec: Product.addToFavorites inserts the (user,
   product) pair (spec sections 3 and 4.3, idempotent flip keyed by
   user+product); absent from the Product model under src. -/
def addToFavorites (db : DB) (userId productId : Nat) : DB :=
  { db with favorites := db.favorites ++ [⟨userId, productId⟩] }

/- Modelled from the spec: Product.removeFromFavorites deletes the (user,
   product) pair; absent from the Product model under src. -/
def removeFromFavorites (db : DB) (userId productId : Nat) : DB :=
  { db with favorites := db.favorites.filter (fun f =>
      !(f.user_id == userId && f.product_id == productId)) }

/- POST /:id/favorite — the toggle route: look the product up, then flip
   the favorite state.  The route has no ownership check: it never compares
   product.seller_id with the caller. -/
def favoriteToggle (db : DB) (userId productId : Nat) : Resp × DB :=
  match Product.findById db productId with
  | none => (⟨404, false, "Product not found"⟩, db)
  | some _ =>
    if isFavoritedBy db userId productId then
      (⟨200, true, "Product removed from favorites"⟩,
       removeFromFavorites db userId productId)
    else
      (⟨200, true, "Product added to favorites"⟩,
       addToFavorites db userId productId)

/- Product.addImage — when the new image is primary, first UPDATE all of
   the product's images to is_primary = FALSE, then INSERT the new image;
   returns the inserted row id. -/
def Product.addImage (db : DB) (productId : Nat) (imageUrl : String)
    (isPrimary : Bool) : Nat × DB :=
  let db1 : DB :=
    if isPrimary then
      { db with product_images := db.product_images.map (fun im =>
          if im.product_id == productId then { im with is_primary := false } else im) }
    else db
  let img : ProductImage := ⟨db1.next_image_id, productId, imageUrl, isPrimary⟩
  (db1.next_image_id,
   { db1 with product_images := db1.product_images ++ [img],
              next_image_id := db1.next_image_id + 1 })

/- DELETE /message/:messageId — only the sender may delete: the SELECT
   filters on id AND sender_id, and on a hit the row with that id is
   DELETEd. -/
def deleteMessage (db : DB) (userId messageId : Nat) : Resp × DB :=
  match db.messages.find? (fun m => m.id == messageId && m.sender_id == userId) with
  | none =>
    (⟨404, false, "Message not found or you cannot delete this message"⟩, db)
  | some _ =>
    (⟨200, true, "Message deleted successfully"⟩,
     { db with messages := db.messages.filter (fun m => !(m.id == messageId)) })

/- The reporter-facing text inserted in the notification for each report
   status update (statusMessages in the report status-update handler). -/
def reportStatusMessage : RStatus → String
| .reviewed => "Your report is being reviewed"
| .resolved => "Your report has been resolved"
| .dismissed => "Your report has been dismissed"
| .pending => ""

/- PUT /reports/:id/status — validate the requested status is reviewed,
   resolved or dismissed, fetch the report, then run the dynamic UPDATE
   (status, optional admin_notes, resolved_at when resolving) and notify
   the reporter.  The handler never reads the current status before
   updating. -/
def updateReportStatus (db : DB) (reportId : Nat) (status : RStatus)
    (admin_notes : Option String) : Resp × DB :=
  if ¬ (status = .reviewed ∨ status = .resolved ∨ status = .dismissed) then
    (⟨400, false, "Invalid status. Must be reviewed, resolved, or dismissed"⟩, db)
  else
    match findReport db reportId with
    | none => (⟨404, false, "Report not found"⟩, db)
    | some report =>
      let reports1 := db.reports.map (fun r =>
        if r.id == reportId then
          { r with
            status := status,
            admin_notes := match admin_notes with
              | some t => some t
              | none => r.admin_notes,
            resolved_at := if status = .resolved then some () else r.resolved_at }
        else r)
      let note : Notification :=
        ⟨report.reporter_id, "admin", "Report Update", reportStatusMessage status⟩
      (⟨200, true, "Report " ++ rStatusStr status ++ " successfully"⟩,
       { db with reports := reports1,
                 notifications := db.notifications ++ [note] })

/- The pagination object every list endpoint builds from the rows it is
   about to return and the requested limit. -/
structure Pagination where
  page : Nat
  limit : Nat
  total : Nat
  hasMore : Bool
deriving DecidableEq, Repr

/- GET /my-purchases — rows filtered on buyer_id (and optionally status),
   then LIMIT ? OFFSET ? with offset = (page-1)*limit, and the derived
   pagination object with hasMore = (returned count == limit). -/
def myPurchases (db : DB) (userId page limit : Nat) (status : Option PStatus) :
    List Purchase × Pagination :=
  let rows :=
    (((db.purchases.filter (fun p =>
        p.buyer_id == userId &&
        (match status with
         | some s => decide (p.status = s)
         | none => true))).drop ((page - 1) * limit)).take limit)
  (rows, ⟨page, limit, rows.length, rows.length == limit⟩)

/- GET /products/pending (admin) — Product.findPending rows with LIMIT and
   OFFSET, and the same derived pagination object. -/
def pendingProducts (db : DB) (page limit : Nat) : List Product × Pagination :=
  let rows :=
    (((db.products.filter (fun p => decide (p.status = ProdStatus.pending))).drop
        ((page - 1) * limit)).take limit)
  (rows, ⟨page, limit, rows.length, rows.length == limit⟩)

/- An empty database with fresh auto-increment counters. -/
def emptyDB : DB := ⟨[], [], [], [], [], [], [], [], [], 1, 1⟩

/- A user row with the given id, names and sales counter; the remaining
   columns take the schema defaults. -/
def mkUser (id : Nat) (nm em pw : String) (sales : Nat) : User :=
  ⟨id, nm, em, none, pw, none, false, true, false, 0, 0, 0, sales, 0, 0⟩

/- A product row with the given id, seller, price and status; the
   remaining columns take representative defaults. -/
def mkProduct (id sellerId price : Nat) (st : ProdStatus) : Product :=
  ⟨id, "item", "a pre-loved item", price, 1, sellerId, "good", none, none,
   st, none, 0, 0⟩

/- A database holding a single chat message, id 1 sent by user 5. -/
def exMsgDB : DB := { emptyDB with messages := [⟨1, 1, 5, "hi", false⟩] }

/- A database holding a single report, id 1, already resolved. -/
def exReportDB : DB :=
  { emptyDB with reports := [⟨1, 2, some 3, "user", "spam", none, .resolved, none, some ()⟩] }

/- A database where user 1 owns approved product 10 and has favorited
   nothing. -/
def exSelfDB : DB :=
  { emptyDB with
    users := [mkUser 1 "alice" "a@x.com" "pw" 0],
    products := [mkProduct 10 1 100 .approved] }

/- A database where buyer 1 already has quantity 10 of seller 2's approved
   product 10 in the cart. -/
def exCartDB : DB :=
  { emptyDB with
    users := [mkUser 1 "alice" "a@x.com" "pw" 0, mkUser 2 "bob" "b@x.com" "pw" 0],
    products := [mkProduct 10 2 100 .approved],
    cart := [⟨1, 10, 10⟩] }

/- A database with a single completed (terminal) purchase, id 1, buyer 1,
   seller 2. -/
def exTermDB : DB :=
  { emptyDB with
    users := [mkUser 1 "alice" "a@x.com" "pw" 0, mkUser 2 "bob" "b@x.com" "pw" 3],
    products := [mkProduct 10 2 100 .sold],
    purchases := [⟨1, 1, 2, 10, 100, 1, "cash", .completed, none, some ()⟩] }

/- A database with a confirmed purchase 1 of product 10 from seller 2
   (sales_count 3) by buyer 1, ready to complete. -/
def exCompDB : DB :=
  { emptyDB with
    users := [mkUser 1 "alice" "a@x.com" "pw" 0, mkUser 2 "bob" "b@x.com" "pw" 3],
    products := [mkProduct 10 2 100 .approved],
    purchases := [⟨1, 1, 2, 10, 100, 1, "cash", .confirmed, none, none⟩] }

/- A database where buyer 1 has seller 2's approved product 10 (price 100)
   in the cart, ready to purchase. -/
def exPurchDB : DB :=
  { emptyDB with
    users := [mkUser 1 "alice" "a@x.com" "pw" 0, mkUser 2 "bob" "b@x.com" "pw" 0],
    products := [mkProduct 10 2 100 .approved],
    cart := [⟨1, 10, 1⟩] }

/- A keyed UPDATE leaves find? on the same key pointing at the updated
   row: mapping the conditional update over the table commutes with the
   lookup whenever the update preserves the key. -/
theorem find_map_update {α : Type} (p : α → Bool) (f : α → α)
    (hf : ∀ x, p (f x) = p x) :
    ∀ l : List α,
      (l.map (fun x => if p x then f x else x)).find? p = (l.find? p).map f := by
  intro l
  induction l with
  | nil => rfl
  | cons a t ih =>
    cases h : p a with
    | true => simp [List.find?, h, hf a]
    | false => simp [List.find?, h, ih]

/- An INSERT at the end of a table is found by a matching lookup exactly
   when no earlier row matched. -/
theorem find_append_of_none {α : Type} (p : α → Bool) (x : α)
    (hx : p x = true) :
    ∀ l : List α, l.find? p = none → (l ++ [x]).find? p = some x := by
  intro l
  induction l with
  | nil => intro _; simp [List.find?, hx]
  | cons a t ih =>
    intro h
    cases ha : p a with
    | true =>
      rw [List.find?_cons_of_pos _ ha] at h
      simp at h
    | false =>
      have ha2 : ¬ p a = true := by simp [ha]
      rw [List.find?_cons_of_neg _ ha2] at h
      rw [List.cons_append, List.find?_cons_of_neg _ ha2]
      exact ih h

/- A DELETE of every row matching a key leaves nothing for a lookup on
   that key to find. -/
theorem find_filter_not {α : Type} (p : α → Bool) (l : List α) :
    (l.filter (fun x => !(p x))).find? p = none := by
  rw [List.find?_eq_none]
  intro x hx
  have h := List.of_mem_filter hx
  simp at h
  simp [h]

/- Unsetting is_primary across a product's images leaves no primary image
   of that product to be found. -/
theorem filter_primary_unset (pid : Nat) (l : List ProductImage) :
    ((l.map (fun im =>
        if im.product_id == pid then { im with is_primary := false } else im)).filter
      (fun im => im.product_id == pid && im.is_primary)) = [] := by
  rw [List.filter_eq_nil_iff]
  intro x hx
  rcases List.mem_map.mp hx with ⟨a, _, rfl⟩
  cases h : a.product_id == pid with
  | true => simp [h]
  | false => simp [h]

/-- C6: after Product.addImage with is_primary = true, exactly one
ProductImage row of that product has is_primary = true, because the write
path first unsets is_primary on all of the product's existing images. -/
theorem c6_addImage_primary_unique (db : DB) (pid : Nat) (url : String) :
    ((Product.addImage db pid url true).2.product_images.filter
      (fun im => im.product_id == pid && im.is_primary)).length = 1 := by
  have h1 : (Product.addImage db pid url true).2.product_images =
      (db.product_images.map (fun im =>
        if im.product_id == pid then { im with is_primary := false } else im)) ++
      [⟨db.next_image_id, pid, url, true⟩] := rfl
  rw [h1, List.filter_append, filter_primary_unset]
  simp [List.filter]

/-- C9: for the paginated list endpoints, the derived hasMore flag is true
exactly when the number of returned rows equals the requested limit. -/
theorem c9_hasMore_iff_count_eq_limit (db : DB) (userId page limit : Nat)
    (status : Option PStatus) :
    ((myPurchases db userId page limit status).2.hasMore = true ↔
      (myPurchases db userId page limit status).1.length = limit)
    ∧ ((pendingProducts db page limit).2.hasMore = true ↔
      (pendingProducts db page limit).1.length = limit) := by
  constructor <;> simp [myPurchases, pendingProducts]

/-- C10: User.toJSON carries no password field: changing only the stored
password hash of a user record leaves the serialized output identical. -/
theorem c10_toJSON_password_free (u : User) (pw : String) :
    User.toJSON { u with password := pw } = User.toJSON u := rfl

/-- C7 counterexample: the delete-message endpoint removes a persisted
message when called by its sender, so the set of stored messages does not
only grow. -/
theorem c7_counterexample :
    (deleteMessage exMsgDB 5 1).1.success = true ∧
    (deleteMessage exMsgDB 5 1).2.messages = [] := by decide

/-- C7 amended: messages are append-only except for the sender-scoped
delete endpoint: a caller who is not the message sender gets a 404 and the
state is unchanged, and the endpoint can only ever remove messages, never
alter or add them. -/
theorem c7_delete_only_by_sender (db : DB) (userId messageId : Nat) :
    (db.messages.find? (fun m => m.id == messageId && m.sender_id == userId) = none →
      deleteMessage db userId messageId =
        (⟨404, false, "Message not found or you cannot delete this message"⟩, db))
    ∧ ∀ m, m ∈ (deleteMessage db userId messageId).2.messages → m ∈ db.messages := by
  constructor
  · intro h
    simp [deleteMessage, h]
  · intro m hm
    cases hfind : db.messages.find?
        (fun m => m.id == messageId && m.sender_id == userId) with
    | none =>
      simp [deleteMessage, hfind] at hm
      exact hm
    | some x =>
      simp [deleteMessage, hfind] at hm
      exact hm.1

/-- C7 witness: user 9 is not the sender of message 1, so the delete
attempt returns 404 and leaves the database unchanged. -/
theorem c7_delete_only_by_sender_witness :
    deleteMessage exMsgDB 9 1 =
      (⟨404, false, "Message not found or you cannot delete this message"⟩, exMsgDB) :=
  (c7_delete_only_by_sender exMsgDB 9 1).1 (by decide)

/-- C8 counterexample: the status-update handler moves a resolved report
back to reviewed, so report status is not forward-only. -/
theorem c8_counterexample :
    (updateReportStatus exReportDB 1 .reviewed none).1.success = true ∧
    findReport (updateReportStatus exReportDB 1 .reviewed none).2 1 =
      some ⟨1, 2, some 3, "user", "spam", none, .reviewed, none, some ()⟩ := by
  decide

/-- C8 amended: the admin status-update accepts any target status in
{reviewed, resolved, dismissed} and sets it unconditionally, without
reading the current status; in particular a resolved or dismissed report
can be moved back to reviewed. -/
theorem c8_update_ignores_prior_status (db : DB) (reportId : Nat) (s : RStatus)
    (notes : Option String) (r : Report)
    (hr : findReport db reportId = some r)
    (hs : s = .reviewed ∨ s = .resolved ∨ s = .dismissed) :
    (updateReportStatus db reportId s notes).1.success = true ∧
    findReport (updateReportStatus db reportId s notes).2 reportId =
      some { r with
             status := s,
             admin_notes := match notes with
               | some t => some t
               | none => r.admin_notes,
             resolved_at := if s = .resolved then some () else r.resolved_at } := by
  have hval : ¬ ¬ (s = .reviewed ∨ s = .resolved ∨ s = .dismissed) := not_not_intro hs
  have key := find_map_update (fun (x : Report) => x.id == reportId)
      (fun x =>
        { x with
          status := s,
          admin_notes := match notes with
            | some t => some t
            | none => x.admin_notes,
          resolved_at := if s = RStatus.resolved then some () else x.resolved_at })
      (fun x => rfl) db.reports
  have hr2 : db.reports.find? (fun x : Report => x.id == reportId) = some r := hr
  rw [hr2] at key
  unfold updateReportStatus
  rw [if_neg hval, hr]
  exact ⟨rfl, key⟩

/-- C8 witness: the resolved report 1 is moved to dismissed, an update the
handler accepts without consulting the prior status. -/
theorem c8_update_ignores_prior_status_witness :
    (updateReportStatus exReportDB 1 .dismissed none).1.success = true ∧
    findReport (updateReportStatus exReportDB 1 .dismissed none).2 1 =
      some ⟨1, 2, some 3, "user", "spam", none, .dismissed, none, some ()⟩ := by
  have h := c8_update_ignores_prior_status exReportDB 1 .dismissed none
    ⟨1, 2, some 3, "user", "spam", none, .resolved, none, some ()⟩ (by decide) (by simp)
  exact ⟨h.1, h.2.trans rfl⟩

/-- C3 counterexample: user 1 favorites their own product 10: the toggle
succeeds with a 200 and inserts the favorites row, instead of rejecting
the self-favorite with a domain error. -/
theorem c3_counterexample :
    (favoriteToggle exSelfDB 1 10).1.success = true ∧
    (favoriteToggle exSelfDB 1 10).2.favorites = [⟨1, 10⟩] := by decide

/-- C3 amended: the cart-add and purchase-create operations reject a user
acting on their own product with a 400 domain error and leave the database
unchanged, but the favorite toggle has no ownership check: it succeeds,
and when no favorite row exists it inserts the (user, product) row. -/
theorem c3_self_dealing (db : DB) (u pid q : Nat) (pm : String) (prod : Product)
    (hp : Product.findById db pid = some prod)
    (hs : prod.seller_id = u)
    (hq : cartAddValid q)
    (hpm : purchaseCreateValid q pm) :
    addToCartRoute db u pid q =
      (⟨400, false, "You cannot add your own product to cart"⟩, db)
    ∧ createPurchaseRoute db u pid q pm =
      (⟨400, false, "You cannot purchase your own product"⟩, none, db)
    ∧ (favoriteToggle db u pid).1.success = true
    ∧ (isFavoritedBy db u pid = false →
        (favoriteToggle db u pid).2.favorites = db.favorites ++ [⟨u, pid⟩]) := by
  have hbeq : (prod.seller_id == u) = true := by simp [hs]
  refine ⟨?_, ?_, ?_, ?_⟩
  · simp [addToCartRoute, hq, addToCartHandler, hp, hbeq]
  · simp [createPurchaseRoute, hpm, createPurchaseHandler, hp, hbeq]
  · cases hf : isFavoritedBy db u pid with
    | true => simp [favoriteToggle, hp, hf]
    | false => simp [favoriteToggle, hp, hf]
  · intro hf
    simp [favoriteToggle, hp, hf, addToFavorites]

/-- C3 witness: on the concrete self-ownership database, cart-add is
rejected unchanged while the favorite toggle goes through. -/
theorem c3_self_dealing_witness :
    addToCartRoute exSelfDB 1 10 2 =
      (⟨400, false, "You cannot add your own product to cart"⟩, exSelfDB)
    ∧ createPurchaseRoute exSelfDB 1 10 2 "upi" =
      (⟨400, false, "You cannot purchase your own product"⟩, none, exSelfDB) := by
  have h := c3_self_dealing exSelfDB 1 10 2 "upi" (mkProduct 10 1 100 .approved)
    rfl rfl (by decide) (by decide)
  exact ⟨h.1, h.2.1⟩

/-- C4 counterexample: with quantity 10 already stored, a valid add of 10
more succeeds and stores quantity 20, outside [1,10]: the merged sum is
never clamped. -/
theorem c4_counterexample :
    (addToCartRoute exCartDB 1 10 10).1.success = true ∧
    findCartItem (addToCartRoute exCartDB 1 10 10).2 1 10 = some ⟨1, 10, 20⟩ := by
  decide

/-- C4 amended: a second add for the same (user, product) pair merges by
adding the new quantity into the existing row without inserting a
duplicate row, and the update-quantity endpoint only ever stores values in
[1,10]; the incoming add quantity is validated to [1,10] but the merged
sum is not clamped, so the stored quantity can exceed 10. -/
theorem c4_cart_merge (db : DB) (u pid q : Nat) (prod : Product) (item : CartItem)
    (hq : cartAddValid q)
    (hp : Product.findById db pid = some prod)
    (hs : prod.seller_id ≠ u)
    (hc : findCartItem db u pid = some item) :
    (addToCartRoute db u pid q).1.success = true
    ∧ findCartItem (addToCartRoute db u pid q).2 u pid =
        some { item with quantity := item.quantity + q }
    ∧ (addToCartRoute db u pid q).2.cart.length = db.cart.length
    ∧ (∀ q2, (updateCartQuantity db u pid q2).1.success = true →
        1 ≤ q2 ∧ q2 ≤ 10 ∧
        findCartItem (updateCartQuantity db u pid q2).2 u pid =
          some { item with quantity := q2 }) := by
  have hbeq : (prod.seller_id == u) = false := by simp [hs]
  have hadd : addToCartRoute db u pid q =
      (⟨200, true, "Item quantity updated in cart"⟩,
       { db with cart := db.cart.map (fun c =>
           if c.user_id == u && c.product_id == pid then
             { c with quantity := c.quantity + q }
           else c) }) := by
    unfold addToCartRoute addToCartHandler
    rw [if_pos hq, hp]
    simp only [hbeq, Bool.false_eq_true, if_false, hc]
  have key := find_map_update
      (fun (c : CartItem) => c.user_id == u && c.product_id == pid)
      (fun c => { c with quantity := c.quantity + q })
      (fun c => rfl) db.cart
  have hc2 : db.cart.find?
      (fun c : CartItem => c.user_id == u && c.product_id == pid) = some item := hc
  rw [hc2] at key
  refine ⟨by rw [hadd], ?_, ?_, ?_⟩
  · rw [hadd]
    exact key
  · rw [hadd]
    exact List.length_map _ _
  · intro q2 hok
    by_cases hb : q2 < 1 ∨ q2 > 10
    · rw [updateCartQuantity, if_pos hb] at hok
      simp at hok
    · have hupd : updateCartQuantity db u pid q2 =
          (⟨200, true, "Cart item updated"⟩,
           { db with cart := db.cart.map (fun c =>
               if c.user_id == u && c.product_id == pid then
                 { c with quantity := q2 }
               else c) }) := by
        unfold updateCartQuantity
        rw [if_neg hb, hc]
      have key2 := find_map_update
          (fun (c : CartItem) => c.user_id == u && c.product_id == pid)
          (fun c => { c with quantity := q2 })
          (fun c => rfl) db.cart
      rw [hc2] at key2
      refine ⟨by omega, by omega, ?_⟩
      rw [hupd]
      exact key2

/-- C4 witness: buyer 1 adds 5 more of product 10 on top of the stored 10:
the rows merge into quantity 15 with no duplicate row, and a quantity
update to 4 stores 4. -/
theorem c4_cart_merge_witness :
    findCartItem (addToCartRoute exCartDB 1 10 5).2 1 10 = some ⟨1, 10, 15⟩
    ∧ (addToCartRoute exCartDB 1 10 5).2.cart.length = exCartDB.cart.length
    ∧ findCartItem (updateCartQuantity exCartDB 1 10 4).2 1 10 = some ⟨1, 10, 4⟩ := by
  have h := c4_cart_merge exCartDB 1 10 5 (mkProduct 10 2 100 .approved) ⟨1, 10, 10⟩
    (by decide) rfl (by decide) rfl
  exact ⟨h.2.1.trans rfl, h.2.2.1, (h.2.2.2 4 (by decide)).2.2.trans rfl⟩

/-- C1: once a purchase is completed or cancelled, the seller-side
status-update endpoint and the buyer-side cancel endpoint both fail for
every caller and leave the database unchanged, and when the rightful
seller or buyer makes the attempt the failure is the 400 domain-conflict
response; no transition out of a terminal state occurs. -/
theorem c1_terminal_state_frozen (db : DB) (pid : Nat) (p : Purchase)
    (hp : findPurchase db pid = some p)
    (ht : p.status = .completed ∨ p.status = .cancelled) :
    (∀ u s tx, (updatePurchaseStatus db u pid s tx).2 = db
        ∧ (updatePurchaseStatus db u pid s tx).1.success = false)
    ∧ (∀ u, (cancelPurchase db u pid).2 = db
        ∧ (cancelPurchase db u pid).1.success = false)
    ∧ (∀ s tx, (s = .confirmed ∨ s = .cancelled ∨ s = .completed) →
        (updatePurchaseStatus db p.seller_id pid s tx).1 =
          ⟨400, false, "Purchase status cannot be changed"⟩)
    ∧ (cancelPurchase db p.buyer_id pid).1 =
        ⟨400, false, "Purchase cannot be cancelled"⟩ := by
  have hnp : p.status ≠ .pending := by rcases ht with h | h <;> simp [h]
  refine ⟨?_, ?_, ?_, ?_⟩
  · intro u s tx
    unfold updatePurchaseStatus
    by_cases hv : s = .confirmed ∨ s = .cancelled ∨ s = .completed
    · rw [if_neg (not_not_intro hv), hp]
      dsimp only
      by_cases hu : p.seller_id ≠ u
      · rw [if_pos hu]; exact ⟨rfl, rfl⟩
      · rw [if_neg hu, if_pos ht]; exact ⟨rfl, rfl⟩
    · rw [if_pos hv]; exact ⟨rfl, rfl⟩
  · intro u
    unfold cancelPurchase
    rw [hp]
    dsimp only
    by_cases hu : p.buyer_id ≠ u
    · rw [if_pos hu]; exact ⟨rfl, rfl⟩
    · rw [if_neg hu, if_pos hnp]; exact ⟨rfl, rfl⟩
  · intro s tx hv
    unfold updatePurchaseStatus
    rw [if_neg (not_not_intro hv), hp]
    dsimp only
    rw [if_neg (by simp), if_pos ht]
  · unfold cancelPurchase
    rw [hp]
    dsimp only
    rw [if_neg (by simp), if_pos hnp]

/-- C1 witness: on the completed purchase 1, the seller's confirm attempt
leaves the database unchanged and the buyer's cancel attempt returns the
400 domain-conflict response. -/
theorem c1_terminal_state_frozen_witness :
    ((updatePurchaseStatus exTermDB 2 1 .confirmed none).2 = exTermDB
      ∧ (updatePurchaseStatus exTermDB 2 1 .confirmed none).1.success = false)
    ∧ (cancelPurchase exTermDB 1 1).1 =
        ⟨400, false, "Purchase cannot be cancelled"⟩ := by
  have h := c1_terminal_state_frozen exTermDB 1
    ⟨1, 1, 2, 10, 100, 1, "cash", .completed, none, some ()⟩ rfl (Or.inl rfl)
  exact ⟨h.1 2 .confirmed none, h.2.2.2⟩

/- Completing a non-terminal purchase as its seller takes the success path
   and produces exactly this database: purchase set to completed with
   completed_at stamped, the buyer notified, the product marked sold and
   the seller's sales_count incremented. -/
theorem updatePurchaseStatus_complete_eq (db : DB) (pid : Nat) (p : Purchase)
    (tx : Option String)
    (hp : findPurchase db pid = some p)
    (hns : p.status = .pending ∨ p.status = .confirmed) :
    updatePurchaseStatus db p.seller_id pid .completed tx =
      (⟨200, true, "Purchase completed successfully"⟩,
       { db with
         purchases := db.purchases.map (fun x =>
           if x.id == pid then
             { x with
               status := PStatus.completed,
               transaction_id := match tx with
                 | some t => some t
                 | none => x.transaction_id,
               completed_at := some () }
           else x),
         notifications := db.notifications ++
           [⟨p.buyer_id, "purchase", "Purchase Update",
             "Your purchase has been completed"⟩],
         products := db.products.map (fun pr =>
           if pr.id == p.product_id then { pr with status := ProdStatus.sold } else pr),
         users := db.users.map (fun w =>
           if w.id == p.seller_id then { w with sales_count := w.sales_count + 1 } else w) }) := by
  have hter : ¬ (p.status = .completed ∨ p.status = .cancelled) := by
    rcases hns with h | h <;> simp [h]
  unfold updatePurchaseStatus
  rw [if_neg (not_not_intro (Or.inr (Or.inr rfl))), hp]
  dsimp only
  rw [if_neg (by simp), if_neg hter]
  rfl

/- A purchase already in a terminal state rejects any status update by
   its seller with the 400 domain-conflict response and leaves the
   database unchanged. -/
theorem updatePurchaseStatus_terminal (db : DB) (pid sid : Nat) (s : PStatus)
    (tx : Option String) (p : Purchase)
    (hp : findPurchase db pid = some p)
    (hsid : p.seller_id = sid)
    (ht : p.status = .completed ∨ p.status = .cancelled)
    (hv : s = .confirmed ∨ s = .cancelled ∨ s = .completed) :
    updatePurchaseStatus db sid pid s tx =
      (⟨400, false, "Purchase status cannot be changed"⟩, db) := by
  unfold updatePurchaseStatus
  rw [if_neg (not_not_intro hv), hp]
  dsimp only
  rw [if_neg (by simp [hsid]), if_pos ht]

/-- C2: completing a non-terminal purchase as its seller succeeds, sets
the referenced product's status to sold and increments the seller's
sales_count by exactly 1; a second completion attempt on the now-completed
purchase returns the 400 domain-conflict response and changes nothing. -/
theorem c2_completion_effects (db : DB) (pid : Nat) (p : Purchase) (prod : Product)
    (seller : User) (tx tx2 : Option String)
    (hp : findPurchase db pid = some p)
    (hns : p.status = .pending ∨ p.status = .confirmed)
    (hprod : Product.findById db p.product_id = some prod)
    (hseller : findUser db p.seller_id = some seller) :
    (updatePurchaseStatus db p.seller_id pid .completed tx).1.success = true
    ∧ Product.findById (updatePurchaseStatus db p.seller_id pid .completed tx).2
        p.product_id = some { prod with status := ProdStatus.sold }
    ∧ findUser (updatePurchaseStatus db p.seller_id pid .completed tx).2 p.seller_id =
        some { seller with sales_count := seller.sales_count + 1 }
    ∧ updatePurchaseStatus (updatePurchaseStatus db p.seller_id pid .completed tx).2
        p.seller_id pid .completed tx2 =
        (⟨400, false, "Purchase status cannot be changed"⟩,
         (updatePurchaseStatus db p.seller_id pid .completed tx).2) := by
  rw [updatePurchaseStatus_complete_eq db pid p tx hp hns]
  refine ⟨rfl, ?_, ?_, ?_⟩
  · have key := find_map_update (fun (x : Product) => x.id == p.product_id)
        (fun x => { x with status := ProdStatus.sold }) (fun x => rfl) db.products
    have hprod2 : db.products.find? (fun x : Product => x.id == p.product_id) =
        some prod := hprod
    rw [hprod2] at key
    exact key
  · have key := find_map_update (fun (x : User) => x.id == p.seller_id)
        (fun x => { x with sales_count := x.sales_count + 1 }) (fun x => rfl) db.users
    have hseller2 : db.users.find? (fun x : User => x.id == p.seller_id) =
        some seller := hseller
    rw [hseller2] at key
    exact key
  · have key := find_map_update (fun (x : Purchase) => x.id == pid)
        (fun x =>
          { x with
            status := PStatus.completed,
            transaction_id := match tx with
              | some t => some t
              | none => x.transaction_id,
            completed_at := some () })
        (fun x => rfl) db.purchases
    have hp2 : db.purchases.find? (fun x : Purchase => x.id == pid) = some p := hp
    rw [hp2] at key
    exact updatePurchaseStatus_terminal _ pid p.seller_id .completed tx2 _ key rfl
      (Or.inl rfl) (Or.inr (Or.inr rfl))

/-- C2 witness: completing confirmed purchase 1 marks product 10 sold,
moves seller 2's sales_count from 3 to 4, and a second completion attempt
gets the 400 domain-conflict response with no further change. -/
theorem c2_completion_effects_witness :
    (updatePurchaseStatus exCompDB 2 1 .completed none).1.success = true
    ∧ Product.findById (updatePurchaseStatus exCompDB 2 1 .completed none).2 10 =
        some (mkProduct 10 2 100 .sold)
    ∧ findUser (updatePurchaseStatus exCompDB 2 1 .completed none).2 2 =
        some (mkUser 2 "bob" "b@x.com" "pw" 4)
    ∧ updatePurchaseStatus (updatePurchaseStatus exCompDB 2 1 .completed none).2
        2 1 .completed none =
        (⟨400, false, "Purchase status cannot be changed"⟩,
         (updatePurchaseStatus exCompDB 2 1 .completed none).2) := by
  have h := c2_completion_effects exCompDB 1
    ⟨1, 1, 2, 10, 100, 1, "cash", .confirmed, none, none⟩
    (mkProduct 10 2 100 .approved) (mkUser 2 "bob" "b@x.com" "pw" 3) none none
    rfl (Or.inr rfl) rfl rfl
  exact ⟨h.1, h.2.1.trans rfl, h.2.2.1.trans rfl, h.2.2.2⟩

/-- C5: a valid purchase creation by a non-seller on an approved product
returns 201 with a purchase record whose price is the product's price at
creation time and whose status is pending, and the buyer's cart row for
the product is deleted; when the product is not approved the request is
rejected with 400 and the database is unchanged. -/
theorem c5_purchase_creation (db : DB) (u pid q : Nat) (pm : String) (prod : Product)
    (hv : purchaseCreateValid q pm)
    (hp : Product.findById db pid = some prod)
    (hs : prod.seller_id ≠ u) :
    (prod.status = .approved →
      createPurchaseRoute db u pid q pm =
        (⟨201, true,
          "Purchase created successfully. Please contact the seller to complete the transaction."⟩,
         some ⟨db.next_purchase_id, u, prod.seller_id, pid, prod.price, q, pm,
               .pending, none, none⟩,
         { db with
           purchases := db.purchases ++
             [⟨db.next_purchase_id, u, prod.seller_id, pid, prod.price, q, pm,
               .pending, none, none⟩],
           next_purchase_id := db.next_purchase_id + 1,
           cart := db.cart.filter (fun c => !(c.user_id == u && c.product_id == pid)),
           notifications := db.notifications ++
             [⟨prod.seller_id, "purchase", "New Purchase",
               "Someone wants to buy your product: " ++ prod.title⟩] })
      ∧ findCartItem (createPurchaseRoute db u pid q pm).2.2 u pid = none)
    ∧ (prod.status ≠ .approved →
      createPurchaseRoute db u pid q pm =
        (⟨400, false, "Product is not available for purchase"⟩, none, db)) := by
  have hbeq : (prod.seller_id == u) = false := by simp [hs]
  constructor
  · intro ha
    have heq : createPurchaseRoute db u pid q pm =
        (⟨201, true,
          "Purchase created successfully. Please contact the seller to complete the transaction."⟩,
         some ⟨db.next_purchase_id, u, prod.seller_id, pid, prod.price, q, pm,
               .pending, none, none⟩,
         { db with
           purchases := db.purchases ++
             [⟨db.next_purchase_id, u, prod.seller_id, pid, prod.price, q, pm,
               .pending, none, none⟩],
           next_purchase_id := db.next_purchase_id + 1,
           cart := db.cart.filter (fun c => !(c.user_id == u && c.product_id == pid)),
           notifications := db.notifications ++
             [⟨prod.seller_id, "purchase", "New Purchase",
               "Someone wants to buy your product: " ++ prod.title⟩] }) := by
      unfold createPurchaseRoute createPurchaseHandler
      rw [if_pos hv, hp]
      dsimp only
      rw [if_neg (by simp [hbeq]), if_neg (by simp [ha])]
    refine ⟨heq, ?_⟩
    rw [heq]
    exact find_filter_not
      (fun c : CartItem => c.user_id == u && c.product_id == pid) db.cart
  · intro hna
    unfold createPurchaseRoute createPurchaseHandler
    rw [if_pos hv, hp]
    dsimp only
    rw [if_neg (by simp [hbeq]), if_pos hna]

/-- C5 witness: buyer 1 purchases approved product 10 (price 100) with
quantity 2: the response purchase has price 100 and status pending, and
the (1, 10) cart row is gone. -/
theorem c5_purchase_creation_witness :
    (createPurchaseRoute exPurchDB 1 10 2 "upi").2.1 =
      some ⟨1, 1, 2, 10, 100, 2, "upi", .pending, none, none⟩
    ∧ findCartItem (createPurchaseRoute exPurchDB 1 10 2 "upi").2.2 1 10 = none := by
  have h := c5_purchase_creation exPurchDB 1 10 2 "upi" (mkProduct 10 2 100 .approved)
    (by decide) rfl (by decide)
  refine ⟨?_, (h.1 rfl).2⟩
  rw [(h.1 rfl).1]
  rfl
